import Mathlib

/-
Verification of the Healthcare AR Management Dashboard (src/app.py, a
Streamlit single-file app) against its natural-language specification.

Modelling conventions:
* Monetary amounts, risk coefficients and scores are rationals (ℚ); the
  Python source uses floats, and the decimal literals appearing in the
  source are carried over as exact fractions (0.4 becomes 4/10, and so on).
* Dates are day numbers (ℤ); `aging_days = now - due_date` mirrors
  `(pd.to_datetime("today") - pd.to_datetime(df["due_date"])).dt.days`.
* Randomness is made explicit: every call the source makes into
  `np.random` becomes a field of an explicit draw record that the
  generator consumes, so the generators are deterministic functions of
  their random inputs.
* Pandas column access on a missing column raises `KeyError`; steps whose
  behaviour depends on column presence are modelled over the list of
  column names the pipeline actually produced, returning `Except`.
-/

namespace ARDashboard

/-- Raw invoice record, the row shape produced by the mock generator
(src/app.py lines 50-61). -/
structure InvoiceRecord where
  invoice_id : String
  patient_id : String
  payer_name : String
  amount_due : ℚ
  amount_paid : ℚ
  status : String
  due_date : ℤ
  last_followup : ℤ
  denial_reason : Option String
  notes : String
deriving Repr, DecidableEq

/-- Invoice record with the per-record derived columns added by the mock
branch of `fetch_ar_data` (lines 63-65) and by `calculate_priority`
(line 72). -/
structure DerivedRecord extends InvoiceRecord where
  aging_days : ℤ
  outstanding : ℚ
  payer_risk : ℚ
  priority_score : ℚ
deriving Repr, DecidableEq

/-- The dict `payer_risk` of `calculate_priority` (line 71); `.map` on a
pandas series yields NaN for keys missing from the dict, modelled as
`none`. -/
def payer_risk_map (p : String) : Option ℚ :=
  if p = "Medicare" then some (2/10)
  else if p = "Blue Cross" then some (4/10)
  else if p = "Aetna" then some (6/10)
  else if p = "UnitedHealthcare" then some (5/10)
  else none

/-- Line 73: `np.where(df["status"] == "denied", 1.0, 0.5)`. -/
def risk_boost (s : String) : ℚ :=
  if s = "denied" then 1 else 5/10

/-- `np.clip(x, lo, hi)`, numpy semantics `min hi (max x lo)`. -/
def np_clip (x lo hi : ℚ) : ℚ :=
  min hi (max x lo)

/-- `calculate_priority` (lines 68-75), per record: the pandas expression
`(df["aging_days"] / 90) * 0.4 + df["payer_risk"] * 0.3 + risk * 0.3`
followed by `np.clip(score, 0, 1)`, where `df["payer_risk"]` is the dict
lookup with `fillna(0.3)`. -/
def calculate_priority (aging_days : ℤ) (payer_name status : String) : ℚ :=
  np_clip (((aging_days : ℚ) / 90) * (4/10)
      + ((payer_risk_map payer_name).getD (3/10)) * (3/10)
      + risk_boost status * (3/10)) 0 1

/-- Derivation pipeline of the mock branch (lines 63-65 plus the in-place
`payer_risk` assignment at line 72): adds `aging_days`, `outstanding`,
`payer_risk` and `priority_score` to a raw record. -/
def derive (now : ℤ) (r : InvoiceRecord) : DerivedRecord :=
  { r with
    aging_days := now - r.due_date
    outstanding := r.amount_due - r.amount_paid
    payer_risk := (payer_risk_map r.payer_name).getD (3/10)
    priority_score := calculate_priority (now - r.due_date) r.payer_name r.status }

/-- A concrete raw record used to instantiate universally quantified
theorems. -/
def sampleRecord : InvoiceRecord :=
  { invoice_id := "INV-1000", patient_id := "PT-1500", payer_name := "Medicare"
    amount_due := 500, amount_paid := 100, status := "open"
    due_date := 0, last_followup := -5, denial_reason := none, notes := "" }

/-- C1: every derived record's `priority_score` is
`0.4 * (aging_days / 90) + 0.3 * payer_risk(payer_name) + 0.3 * risk_boost(status)`
clamped to [0,1] once at the end, with `risk_boost` 1.0 on "denied" and
0.5 otherwise, `payer_risk` the four-entry lookup defaulting to 0.3, and
the output always lies in [0,1]. -/
theorem priority_score_formula_and_range :
    (∀ (now : ℤ) (r : InvoiceRecord),
      (derive now r).priority_score
          = np_clip ((4/10) * (((derive now r).aging_days : ℚ) / 90)
              + (3/10) * ((payer_risk_map r.payer_name).getD (3/10))
              + (3/10) * risk_boost r.status) 0 1
        ∧ 0 ≤ (derive now r).priority_score
        ∧ (derive now r).priority_score ≤ 1)
    ∧ payer_risk_map "Medicare" = some (2/10)
    ∧ payer_risk_map "Blue Cross" = some (4/10)
    ∧ payer_risk_map "Aetna" = some (6/10)
    ∧ payer_risk_map "UnitedHealthcare" = some (5/10)
    ∧ (∀ p : String,
        p ∉ ["Medicare", "Blue Cross", "Aetna", "UnitedHealthcare"] →
        (payer_risk_map p).getD (3/10) = 3/10)
    ∧ risk_boost "denied" = 1
    ∧ (∀ s : String, s ≠ "denied" → risk_boost s = 5/10) := by
  refine ⟨fun now r => ⟨?_, ?_, ?_⟩, by simp [payer_risk_map],
    by simp [payer_risk_map], by simp [payer_risk_map], by simp [payer_risk_map],
    ?_, by simp [risk_boost], ?_⟩
  · show calculate_priority (now - r.due_date) r.payer_name r.status
        = np_clip ((4/10) * (((now - r.due_date : ℤ) : ℚ) / 90)
            + (3/10) * ((payer_risk_map r.payer_name).getD (3/10))
            + (3/10) * risk_boost r.status) 0 1
    unfold calculate_priority
    have h : (((now - r.due_date : ℤ) : ℚ) / 90) * (4/10)
          + ((payer_risk_map r.payer_name).getD (3/10)) * (3/10)
          + risk_boost r.status * (3/10)
        = (4/10) * (((now - r.due_date : ℤ) : ℚ) / 90)
          + (3/10) * ((payer_risk_map r.payer_name).getD (3/10))
          + (3/10) * risk_boost r.status := by ring
    rw [h]
  · show (0 : ℚ) ≤ np_clip _ 0 1
    exact le_min (by norm_num) (le_max_right _ _)
  · show np_clip _ 0 1 ≤ (1 : ℚ)
    exact min_le_left _ _
  · intro p hp
    simp only [List.mem_cons, List.not_mem_nil, or_false, not_or] at hp
    obtain ⟨h1, h2, h3, h4⟩ := hp
    simp [payer_risk_map, h1, h2, h3, h4]
  · intro s hs
    simp [risk_boost, hs]

/-- Witness for C1: instantiates the universally quantified parts and
discharges the membership hypotheses at concrete inputs. -/
theorem priority_score_formula_and_range_witness :
    (payer_risk_map "Cigna").getD (3/10) = 3/10 ∧ risk_boost "open" = 5/10 := by
  refine ⟨?_, ?_⟩
  · exact priority_score_formula_and_range.2.2.2.2.2.1 "Cigna" (by decide)
  · exact priority_score_formula_and_range.2.2.2.2.2.2.2 "open" (by decide)

/-- Default of the sidebar slider `min_priority` (line 82). -/
def MIN_PRIORITY_DEFAULT : ℚ := 3/10

/-- The two sequential filters of lines 89-90:
`df = df[df["priority_score"] >= min_priority]` then
`df = df[df["outstanding"] > 0]`. -/
def threshold_filter (df : List DerivedRecord) (minp : ℚ) : List DerivedRecord :=
  (df.filter (fun r => decide (minp ≤ r.priority_score))).filter
    (fun r => decide (0 < r.outstanding))

/-- Pandas `Series.mean`: NaN (here `none`) on an empty series, otherwise
the arithmetic mean; no exception is raised either way. -/
def pd_mean (l : List ℚ) : Option ℚ :=
  if l.length = 0 then none else some (l.sum / l.length)

/-- Outcome of the main script after the fetch: either the `st.stop()`
no-data halt of lines 85-87, or the four summary metrics of lines 94-97
computed over the filtered table. -/
inductive RunOutcome where
  | noData : RunOutcome
  | metrics (total_ar : ℚ) (open_accounts : ℕ) (avg_dso : Option ℚ)
      (recovery_potential : ℚ) : RunOutcome
deriving Repr, DecidableEq

/-- Lines 84-97 of the main script: the `df.empty` guard runs on the
fetched table, before the threshold filters; the summary metrics are then
computed over the filtered table whatever its size. -/
def run_metrics (fetched : List DerivedRecord) (min_priority : ℚ) : RunOutcome :=
  if fetched.isEmpty then RunOutcome.noData
  else
    let df := threshold_filter fetched min_priority
    RunOutcome.metrics ((df.map (fun r => r.outstanding)).sum) df.length
      (pd_mean (df.map (fun r => (r.aging_days : ℚ))))
      ((df.map (fun r => r.outstanding * (8/10))).sum)

/-- C6: the threshold filter keeps exactly the records with
`priority_score >= min_priority` and `outstanding > 0`, the slider default
is 0.3, and a record with `amount_due = 500`, `amount_paid = 700` has
`outstanding = -200` and is excluded from every filtered table. -/
theorem threshold_filter_keeps_exactly :
    (∀ (df : List DerivedRecord) (minp : ℚ) (r : DerivedRecord),
      r ∈ threshold_filter df minp ↔
        r ∈ df ∧ minp ≤ r.priority_score ∧ 0 < r.outstanding)
    ∧ MIN_PRIORITY_DEFAULT = 3/10
    ∧ (∀ (now : ℤ) (raw : InvoiceRecord),
        raw.amount_due = 500 → raw.amount_paid = 700 →
        (derive now raw).outstanding = -200
          ∧ ∀ (df : List DerivedRecord) (minp : ℚ),
              derive now raw ∉ threshold_filter df minp) := by
  have hmem : ∀ (df : List DerivedRecord) (minp : ℚ) (r : DerivedRecord),
      r ∈ threshold_filter df minp ↔
        r ∈ df ∧ minp ≤ r.priority_score ∧ 0 < r.outstanding := by
    intro df minp r
    simp only [threshold_filter, List.mem_filter, decide_eq_true_eq]
    tauto
  refine ⟨hmem, rfl, fun now raw h1 h2 => ⟨?_, ?_⟩⟩
  · show raw.amount_due - raw.amount_paid = -200
    rw [h1, h2]; norm_num
  · intro df minp hin
    have hpos := ((hmem df minp _).mp hin).2.2
    have : (derive now raw).outstanding = -200 := by
      show raw.amount_due - raw.amount_paid = -200
      rw [h1, h2]; norm_num
    rw [this] at hpos
    norm_num at hpos

/-- Witness for C6 at a concrete overpaid record. -/
theorem threshold_filter_keeps_exactly_witness :
    (derive 10 { sampleRecord with amount_due := 500, amount_paid := 700 }).outstanding
        = -200
      ∧ ∀ (df : List DerivedRecord) (minp : ℚ),
          derive 10 { sampleRecord with amount_due := 500, amount_paid := 700 }
            ∉ threshold_filter df minp :=
  threshold_filter_keeps_exactly.2.2 10
    { sampleRecord with amount_due := 500, amount_paid := 700 } rfl rfl

/-- When the unclamped score already lies in [0,1] the final clamp is the
identity. -/
theorem np_clip01_eq {x : ℚ} (h0 : 0 ≤ x) (h1 : x ≤ 1) : np_clip x 0 1 = x := by
  unfold np_clip
  rw [max_eq_left h0, min_eq_right h1]

/-- The priority score of `sampleRecord` aged 100 days: Medicare (risk
0.2), status "open" (boost 0.5), so the unclamped sum is
100/90 * 0.4 + 0.2 * 0.3 + 0.5 * 0.3 = 589/900, about 0.654. -/
theorem sampleRecord_score_at_100 :
    (derive 100 sampleRecord).priority_score = 589/900 := by
  have h1 : risk_boost "open" = 5/10 := by simp [risk_boost]
  have h2 : (payer_risk_map "Medicare").getD (3/10) = 2/10 := by
    simp [payer_risk_map]
  show calculate_priority 100 "Medicare" "open" = 589/900
  unfold calculate_priority
  rw [h1, h2, np_clip01_eq (by push_cast; norm_num) (by push_cast; norm_num)]
  push_cast
  norm_num

/-- C4 counterexample: a fetched table holding one record that scores
about 0.654 (under 0.85), filtered with `min_priority = 0.9`: the
filtered table is empty, yet the run does not reach the no-data halt —
the metrics are computed over the empty filtered table (totals 0, count
0, mean NaN). -/
theorem empty_filtered_table_does_not_halt :
    threshold_filter [derive 100 sampleRecord] (9/10) = []
      ∧ (derive 100 sampleRecord).priority_score ≤ 85/100
      ∧ run_metrics [derive 100 sampleRecord] (9/10) ≠ RunOutcome.noData
      ∧ run_metrics [derive 100 sampleRecord] (9/10)
          = RunOutcome.metrics 0 0 none 0 := by
  have hlt : ¬ ((9 : ℚ)/10 ≤ (derive 100 sampleRecord).priority_score) := by
    rw [sampleRecord_score_at_100]; norm_num
  have hfil : threshold_filter [derive 100 sampleRecord] (9/10) = [] := by
    simp [threshold_filter, hlt]
  refine ⟨hfil, ?_, ?_, ?_⟩
  · rw [sampleRecord_score_at_100]; norm_num
  · simp [run_metrics, hfil, pd_mean]
  · simp [run_metrics, hfil, pd_mean]

/-- C4 amended: the no-data halt is triggered exactly by an empty fetched
table (the guard of line 85 runs before the filters); when the filters
empty a nonempty fetched table the run proceeds and computes the summary
metrics over the empty filtered table, with sum 0, count 0, NaN mean
(`none`, no exception and no division) and recovery 0. -/
theorem no_data_halt_only_for_empty_fetch :
    (∀ minp : ℚ, run_metrics [] minp = RunOutcome.noData)
      ∧ (∀ (fetched : List DerivedRecord) (minp : ℚ),
          fetched ≠ [] →
          threshold_filter fetched minp = [] →
          run_metrics fetched minp = RunOutcome.metrics 0 0 none 0) := by
  constructor
  · intro minp
    simp [run_metrics]
  · intro fetched minp hne hfil
    simp [run_metrics, hne, hfil, pd_mean]

/-- Witness for the amended C4 at the concrete 0.9-threshold scenario. -/
theorem no_data_halt_only_for_empty_fetch_witness :
    run_metrics [derive 100 sampleRecord] (9/10)
      = RunOutcome.metrics 0 0 none 0 :=
  no_data_halt_only_for_empty_fetch.2 [derive 100 sampleRecord] (9/10)
    (by simp) (by
      have hlt : ¬ ((9 : ℚ)/10 ≤ (derive 100 sampleRecord).priority_score) := by
        rw [sampleRecord_score_at_100]; norm_num
      simp [threshold_filter, hlt])

/-- C9: for fixed payer and status, `calculate_priority` is monotonically
non-decreasing in `aging_days`. -/
theorem priority_score_monotone_in_aging (a1 a2 : ℤ) (p s : String)
    (h : a1 ≤ a2) :
    calculate_priority a1 p s ≤ calculate_priority a2 p s := by
  unfold calculate_priority np_clip
  have hc : (a1 : ℚ) ≤ (a2 : ℚ) := Int.cast_le.mpr h
  exact min_le_min le_rfl (max_le_max (by linarith) le_rfl)

/-- Witness for C9: monotonicity at a concrete pair of aging values. -/
theorem priority_score_monotone_in_aging_witness :
    calculate_priority 10 "Medicare" "open"
      ≤ calculate_priority 100 "Medicare" "open" :=
  priority_score_monotone_in_aging 10 100 "Medicare" "open" (by decide)

/-- One day's worth of draws from `np.random`, consumed by the mock
generator loop body (lines 50-60) in source order. The `_u` rationals
stand for the uniform samples the legacy numpy generator draws. -/
structure DayRand where
  patient_n : ℕ
  payer_idx : Fin 4
  amount_due_u : ℚ
  paid_frac_u : ℚ
  paid_base_u : ℚ
  status_u : ℚ
  followup_n : ℕ
  reason_idx : Fin 4
  reason_u : ℚ
  notes_u : ℚ
deriving Repr, DecidableEq

/-- Line 47. -/
def PAYERS : List String := ["Medicare", "Blue Cross", "Aetna", "UnitedHealthcare"]

/-- Line 48. -/
def REASONS : List String :=
  ["CO-45: Charge exceeds fee", "PR-96: Non-covered", "CO-97: Duplicate",
   "CO-16: Missing info"]

/-- Line 56, `np.random.choice([...], p=[0.4, 0.2, 0.3, 0.1])`: the legacy
generator draws one uniform sample and locates it in the cumulative
weights [0.4, 0.6, 0.9, 1.0] with a right-open search. -/
def status_of (u : ℚ) : String :=
  if u < 4/10 then "open"
  else if u < 6/10 then "partial"
  else if u < 9/10 then "denied"
  else "paid"

/-- Loop body of lines 50-61: the record synthesized for day `i` of the
window, whose due date is `window_start + i`. -/
def mock_record (window_start : ℤ) (i : ℕ) (d : DayRand) : InvoiceRecord :=
  { invoice_id := "INV-" ++ toString (i + 1000)
    patient_id := "PT-" ++ toString d.patient_n
    payer_name := PAYERS.get d.payer_idx
    amount_due := d.amount_due_u
    amount_paid := d.paid_frac_u * d.paid_base_u
    status := status_of d.status_u
    due_date := window_start + i
    last_followup := window_start + i - d.followup_n
    denial_reason :=
      if 7/10 < d.reason_u then some (REASONS.get d.reason_idx) else none
    notes := if 6/10 < d.notes_u then "Follow-up pending" else "" }

/-- The mock branch of `fetch_ar_data` (lines 40-66): `start_date` and
`end_date` are the function's parameters but the branch never reads them;
it builds `pd.date_range(now - 90 days, now, freq="D")` (91 days
inclusive), synthesizes one record per day, then adds the derived
columns. -/
def fetch_ar_data_mock (now : ℤ) (rng : ℕ → DayRand)
    (start_date end_date : ℤ) : List DerivedRecord :=
  ((List.range 91).map (fun i => mock_record (now - 90) i (rng i))).map
    (derive now)

/-- Interval characterization of the weighted status draw: over a uniform
sample in [0,1) the four statuses occupy intervals of lengths 0.4, 0.2,
0.3 and 0.1 respectively. -/
theorem status_of_intervals (u : ℚ) (h0 : 0 ≤ u) (h1 : u < 1) :
    (status_of u = "open" ↔ u < 4/10)
    ∧ (status_of u = "partial" ↔ 4/10 ≤ u ∧ u < 6/10)
    ∧ (status_of u = "denied" ↔ 6/10 ≤ u ∧ u < 9/10)
    ∧ (status_of u = "paid" ↔ 9/10 ≤ u) := by
  unfold status_of
  split_ifs with ha hb hc <;>
    refine ⟨?_, ?_, ?_, ?_⟩ <;>
      simp_all <;>
      first
        | linarith
        | (intro h; linarith)

/-- C8: the mock table is independent of the caller-supplied date range;
it has exactly one record for each of the 91 calendar days of the
trailing window `[now - 90, now]`, with the day's due date; each record's
status comes from the weighted categorical draw with cumulative weights
0.4 / 0.6 / 0.9 / 1.0 (so weights open 0.4, partial 0.2, denied 0.3,
paid 0.1 over a uniform sample), and a denial reason is present exactly
when the day's uniform draw exceeds 0.7 (a 30% chance); the generator is
a total function, so this path never fails. -/
theorem mock_fetch_fixed_window_and_weights :
    (∀ (now : ℤ) (rng : ℕ → DayRand) (s1 e1 s2 e2 : ℤ),
        fetch_ar_data_mock now rng s1 e1 = fetch_ar_data_mock now rng s2 e2)
    ∧ (∀ (now : ℤ) (rng : ℕ → DayRand) (s e : ℤ),
        (fetch_ar_data_mock now rng s e).length = 91
          ∧ (fetch_ar_data_mock now rng s e).map (fun r => r.due_date)
              = (List.range 91).map (fun i => now - 90 + (i : ℤ))
          ∧ (fetch_ar_data_mock now rng s e).map (fun r => r.status)
              = (List.range 91).map (fun i => status_of (rng i).status_u)
          ∧ (fetch_ar_data_mock now rng s e).map (fun r => r.denial_reason.isSome)
              = (List.range 91).map (fun i => decide (7/10 < (rng i).reason_u)))
    ∧ (∀ u : ℚ, 0 ≤ u → u < 1 →
        (status_of u = "open" ↔ u < 4/10)
          ∧ (status_of u = "partial" ↔ 4/10 ≤ u ∧ u < 6/10)
          ∧ (status_of u = "denied" ↔ 6/10 ≤ u ∧ u < 9/10)
          ∧ (status_of u = "paid" ↔ 9/10 ≤ u)) := by
  refine ⟨fun now rng s1 e1 s2 e2 => rfl, fun now rng s e => ⟨?_, ?_, ?_, ?_⟩,
    status_of_intervals⟩
  · simp [fetch_ar_data_mock]
  · simp only [fetch_ar_data_mock, List.map_map]
    rfl
  · simp only [fetch_ar_data_mock, List.map_map]
    rfl
  · simp only [fetch_ar_data_mock, List.map_map]
    refine List.map_congr_left fun i _ => ?_
    show (if (7 : ℚ)/10 < (rng i).reason_u then
        some (REASONS.get (rng i).reason_idx) else none).isSome = _
    split_ifs with h <;> simp [h]

/-- Witness for C8: the interval characterization applied at the concrete
uniform sample 0.7, which falls in the "denied" interval. -/
theorem mock_fetch_fixed_window_and_weights_witness :
    status_of (7/10) = "denied" :=
  ((mock_fetch_fixed_window_and_weights.2.2 (7/10) (by norm_num)
      (by norm_num)).2.2.1).mpr ⟨by norm_num, by norm_num⟩

/-- Shape of one element of the remote payload's `data` array: the fields
the spec requires (`due_date`, `status`) with the mock schema's
identifying and amount fields as the natural normalization. -/
structure ApiRecord where
  invoice_id : String
  payer_name : String
  amount_due : ℚ
  amount_paid : ℚ
  status : String
  due_date : ℤ
deriving Repr, DecidableEq

/-- Remote row after lines 31-32 add `aging_days` and `denial_risk`. -/
structure RemoteRecord extends ApiRecord where
  aging_days : ℤ
  denial_risk : ℚ
deriving Repr, DecidableEq

/-- Outcome of the single `requests.get` call of line 27: a response with
a status code and parsed `data`, or a raised exception (network failure,
timeout) caught by the surrounding `try`. -/
inductive ApiResult where
  | response (status_code : ℕ) (data : List ApiRecord)
  | connection_failure
deriving Repr, DecidableEq

/-- `timeout=20` at line 27. -/
def API_TIMEOUT_SECONDS : ℕ := 20

/-- `"limit": 1000` at line 24. -/
def API_PAGE_LIMIT : ℕ := 1000

/-- Remote branch of `fetch_ar_data` (lines 21-39): one GET with a
20-second timeout and no retry; on HTTP 200 the `data` array becomes the
table and lines 31-32 add `aging_days` and `denial_risk`, where `u` is
the single scalar `np.random.uniform(0.1, 0.8)` that `np.where`
broadcasts over every non-denied row; any other status code, and any
exception reaching the `except` arm, yields an empty table
(`return pd.DataFrame()`), so nothing propagates to the caller. -/
def fetch_ar_data_remote (now : ℤ) (u : ℚ) (result : ApiResult) :
    List RemoteRecord :=
  match result with
  | ApiResult.response code data =>
      if code = 200 then
        data.map (fun r =>
          { r with
            aging_days := now - r.due_date
            denial_risk := if r.status = "denied" then 1 else u })
      else []
  | ApiResult.connection_failure => []

/-- C7: in remote mode a connection failure or a non-2xx response yields
the empty table as an ordinary return value (the branch is total, nothing
re-raises), and the single request carries the 20-second timeout. -/
theorem remote_failure_yields_empty :
    (∀ (now : ℤ) (u : ℚ),
        fetch_ar_data_remote now u ApiResult.connection_failure = [])
    ∧ (∀ (now : ℤ) (u : ℚ) (code : ℕ) (data : List ApiRecord),
        code < 200 ∨ 300 ≤ code →
        fetch_ar_data_remote now u (ApiResult.response code data) = [])
    ∧ API_TIMEOUT_SECONDS = 20 := by
  refine ⟨fun now u => rfl, fun now u code data h => ?_, rfl⟩
  have hne : code ≠ 200 := by omega
  simp [fetch_ar_data_remote, hne]

/-- Witness for C7 at a concrete HTTP 500 response. -/
theorem remote_failure_yields_empty_witness :
    fetch_ar_data_remote 0 (1/2)
        (ApiResult.response 500 [⟨"R-1", "Aetna", 100, 0, "open", 0⟩]) = [] :=
  remote_failure_yields_empty.2.1 0 (1/2) 500
    [⟨"R-1", "Aetna", 100, 0, "open", 0⟩] (Or.inr (by norm_num))

/-- C10: on one successful remote fetch, every row whose status is not
"denied" receives the same `denial_risk` value `u` — the one uniform
scalar broadcast by `np.where` — and every "denied" row receives 1.0; in
particular any two non-denied rows of the same fetch carry equal
`denial_risk`. -/
theorem remote_denial_risk_broadcast :
    (∀ (now : ℤ) (u : ℚ) (data : List ApiRecord) (r : RemoteRecord),
        r ∈ fetch_ar_data_remote now u (ApiResult.response 200 data) →
        (r.status ≠ "denied" → r.denial_risk = u)
          ∧ (r.status = "denied" → r.denial_risk = 1))
    ∧ (∀ (now : ℤ) (u : ℚ) (data : List ApiRecord) (r1 r2 : RemoteRecord),
        r1 ∈ fetch_ar_data_remote now u (ApiResult.response 200 data) →
        r2 ∈ fetch_ar_data_remote now u (ApiResult.response 200 data) →
        r1.status ≠ "denied" → r2.status ≠ "denied" →
        r1.denial_risk = r2.denial_risk) := by
  have key : ∀ (now : ℤ) (u : ℚ) (data : List ApiRecord) (r : RemoteRecord),
      r ∈ fetch_ar_data_remote now u (ApiResult.response 200 data) →
      (r.status ≠ "denied" → r.denial_risk = u)
        ∧ (r.status = "denied" → r.denial_risk = 1) := by
    intro now u data r hr
    rw [fetch_ar_data_remote, if_pos rfl, List.mem_map] at hr
    obtain ⟨a, _, rfl⟩ := hr
    constructor
    · intro hs
      show (if a.status = "denied" then 1 else u) = u
      rw [if_neg hs]
    · intro hs
      show (if a.status = "denied" then 1 else u) = 1
      rw [if_pos hs]
  refine ⟨key, fun now u data r1 r2 h1 h2 hs1 hs2 => ?_⟩
  rw [(key now u data r1 h1).1 hs1, (key now u data r2 h2).1 hs2]

/-- Witness for C10 at a concrete fetch holding one "denied" row. -/
theorem remote_denial_risk_broadcast_witness :
    (RemoteRecord.mk ⟨"R-2", "Aetna", 100, 0, "denied", 0⟩
        (10 - (⟨"R-2", "Aetna", 100, 0, "denied", 0⟩ : ApiRecord).due_date)
        (if (⟨"R-2", "Aetna", 100, 0, "denied", 0⟩ : ApiRecord).status = "denied"
          then 1 else (1/2 : ℚ))).denial_risk = 1 :=
  (remote_denial_risk_broadcast.1 10 (1/2) [⟨"R-2", "Aetna", 100, 0, "denied", 0⟩]
      _ (by simp [fetch_ar_data_remote])).2 rfl

/-- Columns of the raw mock rows (lines 50-61, in dict order). -/
def MOCK_RAW_COLUMNS : List String :=
  ["invoice_id", "patient_id", "payer_name", "amount_due", "amount_paid",
   "status", "due_date", "last_followup", "denial_reason", "notes"]

/-- Columns of the mock table returned by `fetch_ar_data` (lines 62-66):
the raw columns plus, in assignment order, `aging_days` (line 63),
`outstanding` (line 64), `payer_risk` (assigned in place at line 72 by
`calculate_priority`) and `priority_score` (line 65). The filters of
lines 89-90 drop rows, never columns. -/
def mock_df_columns : List String :=
  MOCK_RAW_COLUMNS ++ ["aging_days", "outstanding", "payer_risk", "priority_score"]

/-- Columns of the remote table returned on HTTP 200 (lines 30-33): the
payload's own columns plus `aging_days` and `denial_risk`; the remote
branch adds nothing else. -/
def remote_df_columns (api_columns : List String) : List String :=
  api_columns ++ ["aging_days", "denial_risk"]

/-- The columns the NikoHealth payload carries (the spec requires at
least `due_date` and `status`; the mock schema's identifying and amount
fields are the natural normalization). -/
def API_PAYLOAD_COLUMNS : List String :=
  ["invoice_id", "patient_id", "payer_name", "amount_due", "amount_paid",
   "status", "due_date"]

/-- `df[col]` or `df.groupby(col)` on a frame without the column raises
`KeyError`. -/
def pd_col_access (cols : List String) (key : String) : Except String Unit :=
  if key ∈ cols then Except.ok () else Except.error ("KeyError: " ++ key)

/-- C3 evidence: the mock pipeline computes all four derived columns
before the filter layer reads them, but the remote pipeline computes only
`aging_days` and `denial_risk`, so the filter layer's very first column
read, `df["priority_score"]` at line 89, raises `KeyError` in remote
mode. -/
theorem remote_table_lacks_derived_columns :
    ("aging_days" ∈ mock_df_columns ∧ "outstanding" ∈ mock_df_columns
        ∧ "payer_risk" ∈ mock_df_columns ∧ "priority_score" ∈ mock_df_columns)
    ∧ pd_col_access mock_df_columns "priority_score" = Except.ok ()
    ∧ "priority_score" ∉ remote_df_columns API_PAYLOAD_COLUMNS
    ∧ "outstanding" ∉ remote_df_columns API_PAYLOAD_COLUMNS
    ∧ "payer_risk" ∉ remote_df_columns API_PAYLOAD_COLUMNS
    ∧ pd_col_access (remote_df_columns API_PAYLOAD_COLUMNS) "priority_score"
        = Except.error "KeyError: priority_score" := by
  refine ⟨by decide, ?_, by decide, by decide, by decide, ?_⟩
  · rw [pd_col_access, if_pos (by decide)]
  · rw [pd_col_access, if_neg (by decide)]
    rfl

/-- Labels of line 114. -/
def AGING_BUCKETS : List String := ["0-30", "31-60", "61-90", "90+"]

/-- `pd.cut(aging_days, bins=[0, 30, 60, 90, np.inf], labels=[...])`
(line 114): right-closed intervals, so zero or negative aging falls in no
bin and becomes NaN (`none`). -/
def pd_cut_aging (a : ℤ) : Option String :=
  if a ≤ 0 then none
  else if a ≤ 30 then some "0-30"
  else if a ≤ 60 then some "31-60"
  else if a ≤ 90 then some "61-90"
  else some "90+"

/-- Line 125, `df.groupby("aging_bucket")["outstanding"].sum()` over all
four categorical buckets (zero for empty buckets): raises `KeyError`
unless the frame has an `aging_bucket` column; when it does, that column
holds `pd_cut_aging` of `aging_days`. -/
def aging_pivot (df_columns : List String) (df : List DerivedRecord) :
    Except String (List (String × ℚ)) :=
  if "aging_bucket" ∈ df_columns then
    Except.ok (AGING_BUCKETS.map (fun b =>
      (b, ((df.filter (fun r => decide (pd_cut_aging r.aging_days = some b))).map
            (fun r => r.outstanding)).sum)))
  else Except.error "KeyError: aging_bucket"

/-- Line 114 assigns `aging_bucket` on `priority_df`, the `.copy()` of
the ten top rows, only; the filtered frame `df` keeps the fetched
columns. -/
def priority_df_columns : List String := mock_df_columns ++ ["aging_bucket"]

/-- C2 evidence: the aging aggregation of line 125 runs on `df`, whose
columns are `mock_df_columns` — `aging_bucket` was added only to the
top-10 copy `priority_df` — so it raises `KeyError` on every table
instead of producing the four bucket sums; moreover the bucket assignment
itself sends `aging_days = 0` to NaN, outside every bucket. -/
theorem aging_pivot_raises_keyerror :
    (∀ df : List DerivedRecord,
        aging_pivot mock_df_columns df = Except.error "KeyError: aging_bucket")
    ∧ "aging_bucket" ∈ priority_df_columns
    ∧ "aging_bucket" ∉ mock_df_columns
    ∧ pd_cut_aging 0 = none
    ∧ pd_cut_aging 90 = some "61-90"
    ∧ pd_cut_aging 91 = some "90+" := by
  refine ⟨fun df => ?_, by decide, by decide, by decide, by decide, by decide⟩
  rw [aging_pivot, if_neg (by decide)]

/-- The sort key of line 112: comparison on `priority_score`. -/
def score_le (a b : DerivedRecord) : Prop :=
  a.priority_score ≤ b.priority_score

instance : DecidableRel score_le :=
  fun a b => inferInstanceAs (Decidable (a.priority_score ≤ b.priority_score))

instance : IsTotal DerivedRecord score_le :=
  ⟨fun a b => le_total a.priority_score b.priority_score⟩

instance : IsTrans DerivedRecord score_le :=
  ⟨fun _ _ _ h1 h2 => le_trans h1 h2⟩

/-- `df.sort_values("priority_score", ascending=False)` (line 112):
pandas `nargsort` computes the ascending argsort of the key column with
numpy's default quicksort and reverses the whole indexer for the
descending order. For arrays of at most 16 elements numpy's quicksort is
its insertion-sort base case, which is stable, so the model is a stable
ascending insertion sort followed by `reverse` — exact for such frames,
and in particular equal keys come out in reversed original order. -/
def pandas_sort_desc (df : List DerivedRecord) : List DerivedRecord :=
  (List.insertionSort score_le df).reverse

/-- `.round(0)` (line 113): numpy rounding, half to even. -/
def np_round_half_even (x : ℚ) : ℤ :=
  if Int.fract x < 1/2 then ⌊x⌋
  else if 1/2 < Int.fract x then ⌊x⌋ + 1
  else if ⌊x⌋ % 2 = 0 then ⌊x⌋ else ⌊x⌋ + 1

/-- A row of `priority_df` after lines 112-115: the underlying record
and the three display columns the block mutates or adds. -/
structure PriorityRow where
  record : DerivedRecord
  priority_score_pct : ℤ
  aging_bucket : Option String
  next_action : String
deriving Repr, DecidableEq

/-- Lines 112-115: sort descending by `priority_score`, take the first
10, rescale the score to an integer percentage, cut the aging bucket and
assign the next action. -/
def top_priority_rows (df : List DerivedRecord) : List PriorityRow :=
  ((pandas_sort_desc df).take 10).map (fun r =>
    { record := r
      priority_score_pct := np_round_half_even (r.priority_score * 100)
      aging_bucket := pd_cut_aging r.aging_days
      next_action :=
        if 60 < r.aging_days then "Escalate to Collector"
        else "Auto-Followup Email" })

/-- Two raw records identical but for their invoice id, hence with equal
priority scores. -/
def tieA : InvoiceRecord := { sampleRecord with invoice_id := "INV-A" }

/-- See `tieA`. -/
def tieB : InvoiceRecord := { sampleRecord with invoice_id := "INV-B" }

/-- C5 counterexample: two records with equal scores, "INV-A" first in
the filtered table, come out of the top-N selection as "INV-B" then
"INV-A" — the descending sort does not preserve the original relative
order of equal scores, it reverses it. -/
theorem top_n_tie_break_counterexample :
    (derive 50 tieA).priority_score = (derive 50 tieB).priority_score
    ∧ (top_priority_rows [derive 50 tieA, derive 50 tieB]).map
        (fun p => p.record.invoice_id) = ["INV-B", "INV-A"] := by
  have hEq : (derive 50 tieA).priority_score = (derive 50 tieB).priority_score :=
    rfl
  have hle : score_le (derive 50 tieA) (derive 50 tieB) := le_of_eq hEq
  have hsort : pandas_sort_desc [derive 50 tieA, derive 50 tieB]
      = [derive 50 tieB, derive 50 tieA] := by
    simp [pandas_sort_desc, List.insertionSort, List.orderedInsert, hle]
  refine ⟨hEq, ?_⟩
  rw [top_priority_rows, hsort, List.take_of_length_le (by norm_num)]
  simp [derive, tieA, tieB, sampleRecord]

/-- C5 amended: the top-N selection sorts the filtered table descending
by `priority_score` (a permutation of the input, sorted), but for equal
scores the original relative order is not preserved — with the stable
underlying ascending sort, ties come out reversed (exact for tables of
at most 16 rows, where numpy quicksort is a stable insertion sort); it
takes the first 10 rows, rescales each selected score to the integer
percentage `round(score * 100)` (half to even) and assigns
`next_action = "Escalate to Collector"` when `aging_days > 60` and
`"Auto-Followup Email"` otherwise. -/
theorem top_n_sorted_rescaled_actions :
    (∀ df : List DerivedRecord,
        (pandas_sort_desc df).Perm df
        ∧ (pandas_sort_desc df).Sorted (fun a b => b.priority_score ≤ a.priority_score)
        ∧ (top_priority_rows df).length = min 10 df.length
        ∧ (∀ p ∈ top_priority_rows df,
            p.record ∈ df
            ∧ p.priority_score_pct = np_round_half_even (p.record.priority_score * 100)
            ∧ p.aging_bucket = pd_cut_aging p.record.aging_days
            ∧ p.next_action =
                (if 60 < p.record.aging_days then "Escalate to Collector"
                  else "Auto-Followup Email")))
    ∧ (∀ a b : DerivedRecord, a.priority_score = b.priority_score →
        pandas_sort_desc [a, b] = [b, a]) := by
  constructor
  · intro df
    have hperm : (pandas_sort_desc df).Perm df :=
      (List.reverse_perm _).trans (List.perm_insertionSort score_le df)
    refine ⟨hperm, ?_, ?_, ?_⟩
    · have hs : (List.insertionSort score_le df).Pairwise score_le :=
        List.sorted_insertionSort score_le df
      exact (List.pairwise_reverse).mpr hs
    · rw [top_priority_rows, List.length_map, List.length_take, hperm.length_eq]
    · intro p hp
      rw [top_priority_rows, List.mem_map] at hp
      obtain ⟨r, hr, rfl⟩ := hp
      have hrdf : r ∈ df := hperm.subset (List.take_subset _ _ hr)
      exact ⟨hrdf, rfl, rfl, rfl⟩
  · intro a b h
    have hle : score_le a b := le_of_eq h
    simp [pandas_sort_desc, List.insertionSort, List.orderedInsert, hle]

/-- Witness for the amended C5: the tie pair reversal at two concrete
equal-score records. -/
theorem top_n_sorted_rescaled_actions_witness :
    pandas_sort_desc [derive 50 tieA, derive 50 tieB]
      = [derive 50 tieB, derive 50 tieA] :=
  top_n_sorted_rescaled_actions.2 (derive 50 tieA) (derive 50 tieB) rfl

end ARDashboard
